import Mathlib

/-!
Shallow embedding of the PostgreSQL database resource of
terraform-provider-postgresql (`postgresql/resource_postgresql_database.go`)
together with the external collaborators it interacts with, and proofs of
the specification claims about it.

Modelling conventions:
* A SQL statement handed to the pooled connection's `Exec` is a `Stmt`
  (text plus bound parameters).  Query-only calls (`QueryRow`) are kept
  separate from mutating statements.
* The outcome of each `Exec` call is supplied by an oracle
  `failOf : Stmt → Option String` (`none` = success, `some msg` = the
  underlying store failed with message `msg`).  Catalog reads are answered
  from a pure `Catalog` snapshot.
* Go `defer` + unnamed function results are modelled explicitly: the value a
  Go function returns is fixed at the `return` statement; a deferred closure
  that assigns to a captured local variable afterwards cannot change an
  unnamed result.  Where the source relies on that (the deferred revoke in
  Create and setDBOwner), the model computes both the returned error and the
  error the deferred revoke produced.
* Errors are structured (`Err`) rather than formatted strings; `errwrap.Wrapf`
  becomes `Err.wrap`, `fmt.Errorf` for a capability-gate failure becomes
  `Err.unsupportedFeature`, and raw store errors become `Err.store`.
-/

namespace PGProvider

/-- A bound query parameter, as passed to `db.Exec(sql, args...)`. -/
inductive Param where
  | int (i : Int)
  | bool (b : Bool)
deriving DecidableEq

/-- A mutating statement as executed over the connection: the SQL text and
the list of bound parameters. -/
structure Stmt where
  text : String
  params : List Param
deriving DecidableEq

/-- Structured rendering of the provider's error values. -/
inductive Err where
  | store (msg : String)
  | wrap (ctx : String) (e : Err)
  | unsupportedFeature (feature : String) (version : String)
  | validation (msg : String)
deriving DecidableEq

/-- Go `strings.Contains`, on the underlying character lists. -/
def listContainsSub (sub : List Char) : List Char → Bool
  | [] => sub.isEmpty
  | c :: rest => sub.isPrefixOf (c :: rest) || listContainsSub sub rest

/-- Go `strings.Contains(s, sub)`. -/
def strContains (s sub : String) : Bool :=
  listContainsSub sub.toList s.toList

/-- lib/pq `QuoteIdentifier`: truncate at the first NUL, double every
double-quote, and wrap the result in double quotes. -/
def quoteIdentifier (name : String) : String :=
  let trunc := (name.toList.takeWhile (fun c => c ≠ Char.ofNat 0))
  "\"" ++ String.join (trunc.map (fun c => if c = '"' then "\"\"" else String.mk [c])) ++ "\""

/-- Modelled from the spec: `pqQuoteLiteral` lives outside `src/` (only its
call sites are in the given source).  The spec requires string literals to be
escaped "using the underlying store's literal-quoting rules", i.e. doubling
every single quote inside the literal. -/
def pqQuoteLiteral (literal : String) : String :=
  String.join (literal.toList.map
    (fun c => if c = Char.ofNat 39 then String.mk [c, c] else String.mk [c]))

/-- Modelled from the spec: the CapabilitySet produced by the Capability
Probe (a mapping from optional-feature name to boolean, derived once from the
server version).  Only the two features the database resource consults are
modelled; `Client.featureSupported` is field access on this record. -/
structure CapabilitySet where
  dbAllowConnections : Bool
  dbIsTemplate : Bool
deriving DecidableEq

/-- Modelled from the spec: the connection `Client` (defined outside `src/`):
the acting connection identity `config.Username`, the reported server version
string, and the precomputed CapabilitySet consulted by `featureSupported`. -/
structure Client where
  username : String
  version : String
  caps : CapabilitySet
deriving DecidableEq

/-- The resource's attribute set (DesiredState / ObservedState shape).
String attributes use `""` for "unset" — this matches Terraform's `GetOk`,
which reports `ok = false` exactly when a string attribute holds its zero
value; `connLimit` defaults to `-1`, `allowConns` to `true`. -/
structure DBConfig where
  name : String
  owner : String
  template : String
  encoding : String
  lcCollate : String
  lcCtype : String
  tablespace : String
  connLimit : Int
  allowConns : Bool
  isTemplate : Bool
deriving DecidableEq

/-- Terraform `ResourceData` for this resource: the attribute set plus the
resource identifier (`d.Id()` / `d.SetId`). -/
structure ResourceData where
  cfg : DBConfig
  id : String
deriving DecidableEq

/-- Go `fmt.Fprint` rendering of a boolean. -/
def goBool (b : Bool) : String := if b then "true" else "false"

/-- Go `strings.ToUpper`, character by character. -/
def goToUpper (s : String) : String := String.mk (s.toList.map Char.toUpper)

/-! ### CREATE DATABASE statement construction

Each clause function mirrors one `switch`/`if` block of
`resourcePostgreSQLDatabaseCreate` (lines 136–201), in source order.  For a
string attribute, Terraform's `GetOk` is `ok ↔ value ≠ ""`, so the source's
three-way switches (`ok && upper = DEFAULT` / `ok` / `v = ""`) are exhaustive.
-/

def ownerClause (cfg : DBConfig) (connUser : String) : String :=
  if cfg.owner ≠ "" then " OWNER " ++ quoteIdentifier cfg.owner
  else " OWNER " ++ quoteIdentifier connUser

def templateClause (cfg : DBConfig) : String :=
  if cfg.template ≠ "" ∧ (goToUpper cfg.template) = "DEFAULT" then " TEMPLATE DEFAULT"
  else if cfg.template ≠ "" then " TEMPLATE " ++ quoteIdentifier cfg.template
  else " TEMPLATE template0"

def encodingClause (cfg : DBConfig) : String :=
  if cfg.encoding ≠ "" ∧ (goToUpper cfg.encoding) = "DEFAULT" then " ENCODING DEFAULT"
  else if cfg.encoding ≠ "" then " ENCODING \x27" ++ pqQuoteLiteral cfg.encoding ++ "\x27 "
  else " ENCODING \x27UTF8\x27"

def collationClause (cfg : DBConfig) : String :=
  if cfg.lcCollate ≠ "" ∧ (goToUpper cfg.lcCollate) = "DEFAULT" then " LC_COLLATE DEFAULT"
  else if cfg.lcCollate ≠ "" then " LC_COLLATE \x27" ++ pqQuoteLiteral cfg.lcCollate ++ "\x27 "
  else " LC_COLLATE \x27C\x27"

def ctypeClause (cfg : DBConfig) : String :=
  if cfg.lcCtype ≠ "" ∧ (goToUpper cfg.lcCtype) = "DEFAULT" then " LC_CTYPE DEFAULT"
  else if cfg.lcCtype ≠ "" then " LC_CTYPE \x27" ++ pqQuoteLiteral cfg.lcCtype ++ "\x27 "
  else " LC_CTYPE \x27C\x27"

def tablespaceClause (cfg : DBConfig) : String :=
  if cfg.tablespace ≠ "" ∧ (goToUpper cfg.tablespace) = "DEFAULT" then " TABLESPACE DEFAULT"
  else if cfg.tablespace ≠ "" then " TABLESPACE " ++ quoteIdentifier cfg.tablespace
  else ""

def allowConnsClause (caps : CapabilitySet) (cfg : DBConfig) : String :=
  if caps.dbAllowConnections then " ALLOW_CONNECTIONS " ++ goBool cfg.allowConns
  else ""

def connLimitClause (cfg : DBConfig) : String :=
  " CONNECTION LIMIT " ++ toString cfg.connLimit

def isTemplateClause (caps : CapabilitySet) (cfg : DBConfig) : String :=
  if caps.dbIsTemplate then " IS_TEMPLATE " ++ goBool cfg.isTemplate
  else ""

/-- The full `CREATE DATABASE` text streamed into the buffer `b` by
`resourcePostgreSQLDatabaseCreate` before `c.DB().Exec(sql)` (lines 116–203). -/
def createDatabaseSQL (cfg : DBConfig) (caps : CapabilitySet) (connUser : String) : String :=
  "CREATE DATABASE " ++ quoteIdentifier cfg.name
    ++ ownerClause cfg connUser
    ++ templateClause cfg
    ++ encodingClause cfg
    ++ collationClause cfg
    ++ ctypeClause cfg
    ++ tablespaceClause cfg
    ++ allowConnsClause caps cfg
    ++ connLimitClause cfg
    ++ isTemplateClause caps cfg

/-! ### Catalog model (external store)

The PostgreSQL server is an external collaborator (spec section 6); its
catalog is modelled as a partial map from database name to a row of the
columns the provider reads back. -/

/-- One `pg_database` row in the shape the provider's read queries project. -/
structure CatalogRow where
  datname : String
  owner : String
  encoding : String
  collate : String
  ctype : String
  tablespace : String
  connLimit : Int
  allowConn : Bool
  isTemplate : Bool
deriving DecidableEq

/-- The server catalog: database name to row. -/
def Catalog := String → Option CatalogRow

/-- Server-side defaults used for values the CREATE statement leaves to the
server (absent clause, or the DEFAULT sentinel): the template's encoding and
locale and the default tablespace. -/
structure ServerDefaults where
  encoding : String
  collate : String
  ctype : String
  tablespace : String
deriving DecidableEq

/-- Store semantics of the generated `CREATE DATABASE` statement: the catalog
row an (external) server produces from it.  Each branch corresponds exactly
to the clause the provider emitted for that attribute in
`resourcePostgreSQLDatabaseCreate`: an explicit value is stored as given, the
DEFAULT sentinel and an omitted clause fall back to `ServerDefaults`, and the
provider's own fallbacks (`OWNER connUser`, `ENCODING UTF8`,
`LC_COLLATE C`, `LC_CTYPE C`) are stored as emitted.  Capability-gated
clauses are only emitted when the capability is present; otherwise the server
default applies (`ALLOW_CONNECTIONS true`, `IS_TEMPLATE false`). -/
def createdRow (cfg : DBConfig) (caps : CapabilitySet) (connUser : String)
    (defs : ServerDefaults) : CatalogRow :=
  { datname := cfg.name
    owner := if cfg.owner ≠ "" then cfg.owner else connUser
    encoding :=
      if cfg.encoding ≠ "" ∧ (goToUpper cfg.encoding) = "DEFAULT" then defs.encoding
      else if cfg.encoding ≠ "" then cfg.encoding
      else "UTF8"
    collate :=
      if cfg.lcCollate ≠ "" ∧ (goToUpper cfg.lcCollate) = "DEFAULT" then defs.collate
      else if cfg.lcCollate ≠ "" then cfg.lcCollate
      else "C"
    ctype :=
      if cfg.lcCtype ≠ "" ∧ (goToUpper cfg.lcCtype) = "DEFAULT" then defs.ctype
      else if cfg.lcCtype ≠ "" then cfg.lcCtype
      else "C"
    tablespace :=
      if cfg.tablespace ≠ "" ∧ (goToUpper cfg.tablespace) = "DEFAULT" then defs.tablespace
      else if cfg.tablespace ≠ "" then cfg.tablespace
      else defs.tablespace
    connLimit := cfg.connLimit
    allowConn := if caps.dbAllowConnections then cfg.allowConns else true
    isTemplate := if caps.dbIsTemplate then cfg.isTemplate else false }

/-! ### Role membership grant / revoke (Identity Resolver) -/

/-- The error-message fragment `grantRoleMembership` looks for to recognise
the "role is already a member" condition. -/
def dupKeyMsg : String := "duplicate key value violates unique constraint"

def grantStmt (dbOwner connUsername : String) : Stmt :=
  ⟨"GRANT " ++ quoteIdentifier dbOwner ++ " TO " ++ quoteIdentifier connUsername, []⟩

def revokeStmt (dbOwner connUsername : String) : Stmt :=
  ⟨"REVOKE " ++ quoteIdentifier dbOwner ++ " FROM " ++ quoteIdentifier connUsername, []⟩

/-- `grantRoleMembership` (lines 524–536): executes GRANT when the owner is
non-empty and differs from the connection user; a store failure whose message
contains `dupKeyMsg` is treated as success.  Returns the executed statements
and the function's result. -/
def grantRoleMembership (failOf : Stmt → Option String)
    (dbOwner connUsername : String) : List Stmt × Option Err :=
  if dbOwner ≠ "" ∧ dbOwner ≠ connUsername then
    let s := grantStmt dbOwner connUsername
    match failOf s with
    | none => ([s], none)
    | some e =>
      if strContains e dupKeyMsg then ([s], none)
      else ([s], some (.wrap "Error granting membership" (.store e)))
  else ([], none)

/-- `revokeRoleMembership` (lines 538–546). -/
def revokeRoleMembership (failOf : Stmt → Option String)
    (dbOwner connUsername : String) : List Stmt × Option Err :=
  if dbOwner ≠ "" ∧ dbOwner ≠ connUsername then
    let s := revokeStmt dbOwner connUsername
    match failOf s with
    | none => ([s], none)
    | some e => ([s], some (.wrap "Error revoking membership" (.store e)))
  else ([], none)

/-! ### State Reader -/

/-- The query text format of `dbSQLFmt` in
`resourcePostgreSQLDatabaseReadImpl`, instantiated with a column list. -/
def dbReadQuery (cols : String) : String :=
  "SELECT " ++ cols ++ " FROM pg_catalog.pg_database AS d, pg_catalog.pg_tablespace AS ts WHERE d.datname = $1 AND d.dattablespace = ts.oid"

/-- The first read query (name and owner, line 277). -/
def readNameOwnerQuery : String :=
  "SELECT d.datname, pg_catalog.pg_get_userbyid(d.datdba) from pg_database d WHERE datname=$1"

/-- The core-attributes column list (lines 290–296). -/
def readCoreCols : String :=
  "pg_catalog.pg_encoding_to_char(d.encoding), d.datcollate, d.datctype, ts.spcname, d.datconnlimit"

/-- Result of a read: the updated resource data, the returned error, and the
list of catalog queries that were issued. -/
structure ReadResult where
  d : ResourceData
  ret : Option Err
  queries : List String
deriving DecidableEq

/-- `resourcePostgreSQLDatabaseReadImpl` (lines 272–355).  Queries are
answered from the catalog snapshot; a missing row is `sql.ErrNoRows`, which
clears the identifier and returns success without issuing further queries.
On success each attribute is `d.Set`; the template attribute keeps the
configured value, defaulting to `"template0"` when unset; the capability-gated
attributes are read (and set) only when the capability is present. -/
def resourcePostgreSQLDatabaseReadImpl (caps : CapabilitySet) (cat : Catalog)
    (d : ResourceData) : ReadResult :=
  match cat d.id with
  | none => { d := { d with id := "" }, ret := none, queries := [readNameOwnerQuery] }
  | some row =>
    let cfg := { d.cfg with
      name := row.datname
      owner := row.owner
      encoding := row.encoding
      lcCollate := row.collate
      lcCtype := row.ctype
      tablespace := row.tablespace
      connLimit := row.connLimit }
    let cfg := { cfg with
      template := if d.cfg.template = "" then "template0" else d.cfg.template }
    let cfg :=
      if caps.dbAllowConnections then { cfg with allowConns := row.allowConn } else cfg
    let cfg :=
      if caps.dbIsTemplate then { cfg with isTemplate := row.isTemplate } else cfg
    { d := { d with cfg := cfg }
      ret := none
      queries := [readNameOwnerQuery, dbReadQuery readCoreCols]
        ++ (if caps.dbAllowConnections then [dbReadQuery "d.datallowconn"] else [])
        ++ (if caps.dbIsTemplate then [dbReadQuery "d.datistemplate"] else []) }

/-! ### Create -/

/-- Result of the Create lifecycle operation.  `ret` is the error value the
Go function actually returns; `revokeErr` is the error (if any) produced by
the deferred `revokeRoleMembership`.  Because the Go function's result is
unnamed, the deferred closure's assignment `err = ...` cannot reach the
caller: `ret` never incorporates `revokeErr`. -/
structure CreateResult where
  d : ResourceData
  cat : Catalog
  stmts : List Stmt
  ret : Option Err
  revokeErr : Option Err

/-- Wrap for the grant failure in Create / setDBOwner (line 123 / 425):
fmt.Sprintf("Error adding connection user (%q) to ROLE %q") with the
format verbs rendered as plain quotes. -/
def grantCtx (connUser dbOwner : String) : String :=
  "Error adding connection user (\"" ++ connUser ++ "\") to ROLE \"" ++ dbOwner ++ "\""

/-- Wrap the deferred revoke applies to a revoke failure (line 129 / 431)
before assigning it to the (already returned) local `err`. -/
def revokeCtx (connUser dbOwner : String) : String :=
  "Error removing connection user (\"" ++ connUser ++ "\") from ROLE \"" ++ dbOwner ++ "\""

/-- `resourcePostgreSQLDatabaseCreate` (lines 109–214).  Builds the CREATE
DATABASE text, brackets it in grant/revoke of the owner role, executes it,
sets the identifier and re-reads the state.  The deferred revoke (lines
125–131) is registered only after the grant succeeded, runs on every later
exit path, and its error is assigned to the local `err` after the unnamed
function result has already been fixed — so it is recorded in `revokeErr`
but never in `ret`. -/
def resourcePostgreSQLDatabaseCreate (c : Client) (defs : ServerDefaults)
    (failOf : Stmt → Option String) (cat : Catalog) (d : ResourceData) : CreateResult :=
  let dbName := d.cfg.name
  let (gs, ge) := grantRoleMembership failOf d.cfg.owner c.username
  match ge with
  | some e =>
    { d := d, cat := cat, stmts := gs
      ret := some (.wrap (grantCtx c.username d.cfg.owner) e), revokeErr := none }
  | none =>
    let createStmt : Stmt := ⟨createDatabaseSQL d.cfg c.caps c.username, []⟩
    match failOf createStmt with
    | some e =>
      let (rs, re) := revokeRoleMembership failOf d.cfg.owner c.username
      { d := d, cat := cat, stmts := gs ++ [createStmt] ++ rs
        ret := some (.wrap ("Error creating database \"" ++ dbName ++ "\"") (.store e))
        revokeErr := re.map (.wrap (revokeCtx c.username d.cfg.owner)) }
    | none =>
      let cat' : Catalog := fun n =>
        if n = dbName then some (createdRow d.cfg c.caps c.username defs) else cat n
      let rr := resourcePostgreSQLDatabaseReadImpl c.caps cat' { d with id := dbName }
      let (rs, re) := revokeRoleMembership failOf d.cfg.owner c.username
      { d := rr.d, cat := cat', stmts := gs ++ [createStmt] ++ rs
        ret := rr.ret, revokeErr := re.map (.wrap (revokeCtx c.username d.cfg.owner)) }

/-! ### Per-attribute setters (Reconciler) -/

def renameStmt (o n : String) : Stmt :=
  ⟨"ALTER DATABASE " ++ quoteIdentifier o ++ " RENAME TO " ++ quoteIdentifier n, []⟩

/-- `setDBName` (lines 391–410).  `HasChange` is old ≠ new; renaming to the
empty string is a validation error; on success the identifier becomes the new
name.  Returns (new identifier, executed statements, result). -/
def setDBName (failOf : Stmt → Option String) (old new : DBConfig) (id : String) :
    String × List Stmt × Option Err :=
  if old.name = new.name then (id, [], none)
  else if new.name = "" then
    (id, [], some (.validation "Error setting database name to an empty string"))
  else
    let s := renameStmt old.name new.name
    match failOf s with
    | some e => (id, [s], some (.wrap "Error updating database name" (.store e)))
    | none => (new.name, [s], none)

def alterOwnerStmt (dbName owner : String) : Stmt :=
  ⟨"ALTER DATABASE " ++ quoteIdentifier dbName ++ " OWNER TO " ++ quoteIdentifier owner, []⟩

/-- `setDBOwner` (lines 412–442).  `d.Get` returns the new (desired) values,
so the ALTER references the new database name.  The deferred revoke runs
after the Exec; as in Create, its error is assigned to the local `err` after
the unnamed result is fixed, so the function returns the pre-defer value
(`nil` when the ALTER succeeded) and the revoke error is only recorded. -/
def setDBOwner (failOf : Stmt → Option String) (c : Client) (old new : DBConfig) :
    List Stmt × Option Err × Option Err :=
  if old.owner = new.owner then ([], none, none)
  else if new.owner = "" then ([], none, none)
  else
    let (gs, ge) := grantRoleMembership failOf new.owner c.username
    match ge with
    | some e => (gs, some (.wrap (grantCtx c.username new.owner) e), none)
    | none =>
      let s := alterOwnerStmt new.name new.owner
      match failOf s with
      | some e =>
        let (rs, re) := revokeRoleMembership failOf new.owner c.username
        (gs ++ [s] ++ rs, some (.wrap "Error updating database OWNER" (.store e)),
          re.map (.wrap (revokeCtx c.username new.owner)))
      | none =>
        let (rs, re) := revokeRoleMembership failOf new.owner c.username
        (gs ++ [s] ++ rs, none, re.map (.wrap (revokeCtx c.username new.owner)))

/-- `setDBTablespace` (lines 444–463). -/
def setDBTablespace (failOf : Stmt → Option String) (old new : DBConfig) :
    List Stmt × Option Err :=
  if old.tablespace = new.tablespace then ([], none)
  else
    let s : Stmt :=
      if new.tablespace = "" ∨ (goToUpper new.tablespace) = "DEFAULT" then
        ⟨"ALTER DATABASE " ++ quoteIdentifier new.name ++ " RESET TABLESPACE", []⟩
      else
        ⟨"ALTER DATABASE " ++ quoteIdentifier new.name ++ " SET TABLESPACE "
          ++ quoteIdentifier new.tablespace, []⟩
    match failOf s with
    | some e => ([s], some (.wrap "Error updating database TABLESPACE" (.store e)))
    | none => ([s], none)

def connLimitStmt (dbName : String) (connLimit : Int) : Stmt :=
  ⟨"ALTER DATABASE " ++ quoteIdentifier dbName ++ " CONNECTION LIMIT = $1",
    [.int connLimit]⟩

/-- `setDBConnLimit` (lines 465–478): the limit travels as the bound
parameter `$1`, never in the statement text. -/
def setDBConnLimit (failOf : Stmt → Option String) (old new : DBConfig) :
    List Stmt × Option Err :=
  if old.connLimit = new.connLimit then ([], none)
  else
    let s := connLimitStmt new.name new.connLimit
    match failOf s with
    | some e => ([s], some (.wrap "Error updating database CONNECTION LIMIT" (.store e)))
    | none => ([s], none)

/-- `setDBAllowConns` (lines 480–497): capability-gated; an absent capability
is an error raised before any statement is executed. -/
def setDBAllowConns (failOf : Stmt → Option String) (c : Client) (old new : DBConfig) :
    List Stmt × Option Err :=
  if old.allowConns = new.allowConns then ([], none)
  else if ¬ c.caps.dbAllowConnections then
    ([], some (.unsupportedFeature "ALLOW_CONNECTIONS" c.version))
  else
    let s : Stmt := ⟨"ALTER DATABASE " ++ quoteIdentifier new.name
      ++ " ALLOW_CONNECTIONS $1", [.bool new.allowConns]⟩
    match failOf s with
    | some e => ([s], some (.wrap "Error updating database ALLOW_CONNECTIONS" (.store e)))
    | none => ([s], none)

def isTemplateStmt (dbName : String) (isTemplate : Bool) : Stmt :=
  ⟨"ALTER DATABASE " ++ quoteIdentifier dbName ++ " IS_TEMPLATE $1", [.bool isTemplate]⟩

/-- `doSetDBIsTemplate` (lines 511–522). -/
def doSetDBIsTemplate (failOf : Stmt → Option String) (c : Client)
    (dbName : String) (isTemplate : Bool) : List Stmt × Option Err :=
  if ¬ c.caps.dbIsTemplate then
    ([], some (.unsupportedFeature "IS_TEMPLATE" c.version))
  else
    let s := isTemplateStmt dbName isTemplate
    match failOf s with
    | some e => ([s], some (.wrap "Error updating database IS_TEMPLATE" (.store e)))
    | none => ([s], none)

/-- `setDBIsTemplate` (lines 499–509).  `hasChange` is the host's diff for
the is-template attribute (old ≠ new on Update; whatever the ResourceData
carries on Delete); `dbName`/`isTemplate` are the current `d.Get` values. -/
def setDBIsTemplate (failOf : Stmt → Option String) (c : Client)
    (hasChange : Bool) (dbName : String) (isTemplate : Bool) : List Stmt × Option Err :=
  if ¬ hasChange then ([], none)
  else
    match doSetDBIsTemplate failOf c dbName isTemplate with
    | (ss, some e) => (ss, some (.wrap "Error updating database IS_TEMPLATE" e))
    | (ss, none) => (ss, none)

/-! ### Update and Delete -/

/-- Result of the mutation phase of Update (lines 362–385): the identifier
after a possible rename, the executed statements in order, the error the
phase returns (the first setter failure, if any), and the revoke error the
owner setter produced but dropped (unnamed-result semantics). -/
structure UpdateResult where
  id : String
  stmts : List Stmt
  ret : Option Err
  droppedRevokeErr : Option Err
deriving Inhabited

/-- `resourcePostgreSQLDatabaseUpdate` (lines 357–389), mutation phase: the
six per-attribute setters run in fixed order (name, owner, tablespace,
connection limit, allow-connections, is-template), short-circuiting on the
first error.  The final `resourcePostgreSQLDatabaseReadImpl` call (line 388)
issues only catalog queries, no mutating statements, and is modelled
separately. -/
def resourcePostgreSQLDatabaseUpdate (failOf : Stmt → Option String) (c : Client)
    (old new : DBConfig) (id : String) : UpdateResult :=
  let (id1, s1, e1) := setDBName failOf old new id
  match e1 with
  | some e => { id := id1, stmts := s1, ret := some e, droppedRevokeErr := none }
  | none =>
    let (s2, e2, rev2) := setDBOwner failOf c old new
    match e2 with
    | some e => { id := id1, stmts := s1 ++ s2, ret := some e, droppedRevokeErr := rev2 }
    | none =>
      let (s3, e3) := setDBTablespace failOf old new
      match e3 with
      | some e =>
        { id := id1, stmts := s1 ++ s2 ++ s3, ret := some e, droppedRevokeErr := rev2 }
      | none =>
        let (s4, e4) := setDBConnLimit failOf old new
        match e4 with
        | some e =>
          { id := id1, stmts := s1 ++ s2 ++ s3 ++ s4, ret := some e
            droppedRevokeErr := rev2 }
        | none =>
          let (s5, e5) := setDBAllowConns failOf c old new
          match e5 with
          | some e =>
            { id := id1, stmts := s1 ++ s2 ++ s3 ++ s4 ++ s5, ret := some e
              droppedRevokeErr := rev2 }
          | none =>
            let (s6, e6) := setDBIsTemplate failOf c (old.isTemplate ≠ new.isTemplate)
              new.name new.isTemplate
            { id := id1, stmts := s1 ++ s2 ++ s3 ++ s4 ++ s5 ++ s6, ret := e6
              droppedRevokeErr := rev2 }

def dropStmt (dbName : String) : Stmt :=
  ⟨"DROP DATABASE " ++ quoteIdentifier dbName, []⟩

/-- Result of Delete: identifier after the operation, executed statements in
order, returned error. -/
structure DeleteResult where
  id : String
  stmts : List Stmt
  ret : Option Err
deriving Inhabited

/-- `resourcePostgreSQLDatabaseDelete` (lines 216–245): when the is-template
capability is present and the current is-template value is true, the flag is
cleared first (`doSetDBIsTemplate c dbName false`); then `setDBIsTemplate`
runs with the host's diff information (`hasChangeIsTemplate`); then the DROP
is executed and the identifier cleared. -/
def resourcePostgreSQLDatabaseDelete (failOf : Stmt → Option String) (c : Client)
    (cfg : DBConfig) (hasChangeIsTemplate : Bool) (id : String) : DeleteResult :=
  let dbName := cfg.name
  let (s1, e1) :=
    if c.caps.dbIsTemplate ∧ cfg.isTemplate then
      match doSetDBIsTemplate failOf c dbName false with
      | (ss, some e) =>
        (ss, some (Err.wrap "Error updating database IS_TEMPLATE during DROP DATABASE" e))
      | (ss, none) => (ss, none)
    else ([], none)
  match e1 with
  | some e => { id := id, stmts := s1, ret := some e }
  | none =>
    let (s2, e2) := setDBIsTemplate failOf c hasChangeIsTemplate dbName cfg.isTemplate
    match e2 with
    | some e => { id := id, stmts := s1 ++ s2, ret := some e }
    | none =>
      let s := dropStmt dbName
      match failOf s with
      | some e =>
        { id := id, stmts := s1 ++ s2 ++ [s]
          ret := some (.wrap "Error dropping database" (.store e)) }
      | none => { id := "", stmts := s1 ++ s2 ++ [s], ret := none }

/-- The always-succeeding store oracle. -/
def allOk : Stmt → Option String := fun _ => none

/-! ### Helper lemmas -/

lemma grantRoleMembership_allOk (o u : String) :
    grantRoleMembership allOk o u =
      ((if o ≠ "" ∧ o ≠ u then [grantStmt o u] else []), none) := by
  unfold grantRoleMembership allOk
  split <;> rfl

lemma revokeRoleMembership_allOk (o u : String) :
    revokeRoleMembership allOk o u =
      ((if o ≠ "" ∧ o ≠ u then [revokeStmt o u] else []), none) := by
  unfold revokeRoleMembership allOk
  split <;> rfl

lemma setDBName_allOk_changed (old new : DBConfig) (id : String)
    (hn : old.name ≠ new.name) (hn2 : new.name ≠ "") :
    setDBName allOk old new id = (new.name, [renameStmt old.name new.name], none) := by
  unfold setDBName allOk
  rw [if_neg hn, if_neg hn2]

lemma setDBOwner_allOk_changed (c : Client) (old new : DBConfig)
    (ho : old.owner ≠ new.owner) (ho2 : new.owner ≠ "") :
    setDBOwner allOk c old new =
      ((if new.owner ≠ "" ∧ new.owner ≠ c.username then [grantStmt new.owner c.username] else [])
          ++ [alterOwnerStmt new.name new.owner]
          ++ (if new.owner ≠ "" ∧ new.owner ≠ c.username then [revokeStmt new.owner c.username] else []),
        none, none) := by
  unfold setDBOwner
  rw [if_neg ho, if_neg ho2, grantRoleMembership_allOk, revokeRoleMembership_allOk]
  rfl

lemma isTemplateStmt_ne_dropStmt (n m : String) (b : Bool) :
    isTemplateStmt n b ≠ dropStmt m := by
  intro h
  simpa [isTemplateStmt, dropStmt] using congrArg Stmt.params h

/-! ### Claim theorems -/

/-- C10: for every Create whose desired state leaves the owner attribute
unset, the generated CREATE DATABASE text carries an explicit
`OWNER <connecting username>` clause, so a created database never has an
unspecified owner clause. -/
theorem create_unset_owner_uses_connecting_user (cfg : DBConfig) (caps : CapabilitySet)
    (u : String) (h : cfg.owner = "") :
    createDatabaseSQL cfg caps u =
      "CREATE DATABASE " ++ quoteIdentifier cfg.name ++ (" OWNER " ++ quoteIdentifier u)
        ++ templateClause cfg ++ encodingClause cfg ++ collationClause cfg ++ ctypeClause cfg
        ++ tablespaceClause cfg ++ allowConnsClause caps cfg ++ connLimitClause cfg
        ++ isTemplateClause caps cfg := by
  unfold createDatabaseSQL ownerClause
  rw [h]
  simp

/-- Witness for C10 at a concrete input. -/
theorem create_unset_owner_uses_connecting_user_witness :
    createDatabaseSQL
        { name := "app_db", owner := "", template := "", encoding := "", lcCollate := "",
          lcCtype := "", tablespace := "", connLimit := -1, allowConns := true,
          isTemplate := false } ⟨true, true⟩ "admin" =
      "CREATE DATABASE " ++ quoteIdentifier "app_db" ++ (" OWNER " ++ quoteIdentifier "admin")
        ++ templateClause
            { name := "app_db", owner := "", template := "", encoding := "", lcCollate := "",
              lcCtype := "", tablespace := "", connLimit := -1, allowConns := true,
              isTemplate := false }
        ++ encodingClause
            { name := "app_db", owner := "", template := "", encoding := "", lcCollate := "",
              lcCtype := "", tablespace := "", connLimit := -1, allowConns := true,
              isTemplate := false }
        ++ collationClause
            { name := "app_db", owner := "", template := "", encoding := "", lcCollate := "",
              lcCtype := "", tablespace := "", connLimit := -1, allowConns := true,
              isTemplate := false }
        ++ ctypeClause
            { name := "app_db", owner := "", template := "", encoding := "", lcCollate := "",
              lcCtype := "", tablespace := "", connLimit := -1, allowConns := true,
              isTemplate := false }
        ++ tablespaceClause
            { name := "app_db", owner := "", template := "", encoding := "", lcCollate := "",
              lcCtype := "", tablespace := "", connLimit := -1, allowConns := true,
              isTemplate := false }
        ++ allowConnsClause ⟨true, true⟩
            { name := "app_db", owner := "", template := "", encoding := "", lcCollate := "",
              lcCtype := "", tablespace := "", connLimit := -1, allowConns := true,
              isTemplate := false }
        ++ connLimitClause
            { name := "app_db", owner := "", template := "", encoding := "", lcCollate := "",
              lcCtype := "", tablespace := "", connLimit := -1, allowConns := true,
              isTemplate := false }
        ++ isTemplateClause ⟨true, true⟩
            { name := "app_db", owner := "", template := "", encoding := "", lcCollate := "",
              lcCtype := "", tablespace := "", connLimit := -1, allowConns := true,
              isTemplate := false } :=
  create_unset_owner_uses_connecting_user _ _ _ rfl

/-- C9: a duplicate-membership ("role already a member") condition reported
by the store during the owner-membership grant is treated as success, and the
grant executes no statement at all when the owner name is empty or equals the
acting connection identity. -/
theorem grant_duplicate_is_success_and_selfgrant_noop :
    (∀ (failOf : Stmt → Option String) (o u e : String),
      o ≠ "" → o ≠ u → failOf (grantStmt o u) = some e → strContains e dupKeyMsg = true →
      grantRoleMembership failOf o u = ([grantStmt o u], none)) ∧
    (∀ (failOf : Stmt → Option String) (o u : String),
      o = "" ∨ o = u → grantRoleMembership failOf o u = ([], none)) := by
  constructor
  · intro failOf o u e h1 h2 hf hd
    unfold grantRoleMembership
    rw [if_pos ⟨h1, h2⟩]
    simp [hf, hd]
  · intro failOf o u h
    unfold grantRoleMembership
    have hne : ¬(o ≠ "" ∧ o ≠ u) := by
      rcases h with h | h <;> simp [h]
    rw [if_neg hne]

/-- Witness for C9: a store failure containing the duplicate-key message is
success; an empty owner and an owner equal to the identity are no-ops. -/
theorem grant_duplicate_is_success_and_selfgrant_noop_witness :
    grantRoleMembership (fun _ => some ("pq: " ++ dupKeyMsg ++ " \x22pg_auth_members_role_member_index\x22"))
        "app_role" "admin" = ([grantStmt "app_role" "admin"], none) ∧
    grantRoleMembership allOk "" "admin" = ([], none) ∧
    grantRoleMembership allOk "admin" "admin" = ([], none) :=
  ⟨grant_duplicate_is_success_and_selfgrant_noop.1 _ "app_role" "admin"
      ("pq: " ++ dupKeyMsg ++ " \x22pg_auth_members_role_member_index\x22")
      (by decide) (by decide) rfl (by decide),
   grant_duplicate_is_success_and_selfgrant_noop.2 allOk "" "admin" (Or.inl rfl),
   grant_duplicate_is_success_and_selfgrant_noop.2 allOk "admin" "admin" (Or.inr rfl)⟩

/-- C8: reading an identity that is not in the catalog returns success,
clears the resource identifier, leaves every attribute untouched, and issues
no catalog query beyond the first. -/
theorem read_not_found_clears_identity (caps : CapabilitySet) (cat : Catalog)
    (d : ResourceData) (h : cat d.id = none) :
    resourcePostgreSQLDatabaseReadImpl caps cat d =
      { d := { d with id := "" }, ret := none, queries := [readNameOwnerQuery] } := by
  unfold resourcePostgreSQLDatabaseReadImpl
  rw [h]

/-- Witness for C8 at a concrete input. -/
theorem read_not_found_clears_identity_witness :
    resourcePostgreSQLDatabaseReadImpl ⟨true, true⟩ (fun _ => none)
        ⟨{ name := "ghost_db", owner := "", template := "", encoding := "", lcCollate := "",
           lcCtype := "", tablespace := "", connLimit := -1, allowConns := true,
           isTemplate := false }, "ghost_db"⟩ =
      { d := ⟨{ name := "ghost_db", owner := "", template := "", encoding := "", lcCollate := "",
                lcCtype := "", tablespace := "", connLimit := -1, allowConns := true,
                isTemplate := false }, ""⟩
        ret := none, queries := [readNameOwnerQuery] } :=
  read_not_found_clears_identity ⟨true, true⟩ (fun _ => none) _ rfl

/-- C4: an Update whose desired state equals the observed state executes zero
mutating statements and reports no error from the mutation phase: every
per-attribute setter sees an unchanged attribute and returns immediately. -/
theorem update_equal_states_emits_nothing (failOf : Stmt → Option String) (c : Client)
    (old new : DBConfig) (id : String) (h : old = new) :
    (resourcePostgreSQLDatabaseUpdate failOf c old new id).stmts = [] ∧
    (resourcePostgreSQLDatabaseUpdate failOf c old new id).ret = none := by
  subst h
  unfold resourcePostgreSQLDatabaseUpdate setDBName setDBOwner setDBTablespace
    setDBConnLimit setDBAllowConns setDBIsTemplate
  simp

/-- Witness for C4 at a concrete input. -/
theorem update_equal_states_emits_nothing_witness :
    (resourcePostgreSQLDatabaseUpdate allOk ⟨"admin", "9.6.0", ⟨true, true⟩⟩
        { name := "app_db", owner := "app_role", template := "template0", encoding := "UTF8",
          lcCollate := "C", lcCtype := "C", tablespace := "pg_default", connLimit := 10,
          allowConns := true, isTemplate := false }
        { name := "app_db", owner := "app_role", template := "template0", encoding := "UTF8",
          lcCollate := "C", lcCtype := "C", tablespace := "pg_default", connLimit := 10,
          allowConns := true, isTemplate := false } "app_db").stmts = [] ∧
    (resourcePostgreSQLDatabaseUpdate allOk ⟨"admin", "9.6.0", ⟨true, true⟩⟩
        { name := "app_db", owner := "app_role", template := "template0", encoding := "UTF8",
          lcCollate := "C", lcCtype := "C", tablespace := "pg_default", connLimit := 10,
          allowConns := true, isTemplate := false }
        { name := "app_db", owner := "app_role", template := "template0", encoding := "UTF8",
          lcCollate := "C", lcCtype := "C", tablespace := "pg_default", connLimit := 10,
          allowConns := true, isTemplate := false } "app_db").ret = none :=
  update_equal_states_emits_nothing allOk ⟨"admin", "9.6.0", ⟨true, true⟩⟩ _ _ "app_db" rfl

set_option maxRecDepth 100000

/-- C1 (evidence of the code bug): with a store that accepts the grant, the
CREATE DATABASE statement and the read-back, but fails the final REVOKE, the
Create operation returns no error at all — the revoke failure is computed by
the deferred closure (recorded in `revokeErr`) but, the Go function's result
being unnamed, it never reaches the caller.  The same holds for the owner
setter used by Update.  This contradicts the source's own comment ("Set err
outside of the return so that the deferred revoke can override err if
necessary", lines 210–211) and the spec, which both require the revoke
failure to surface. -/
theorem create_and_owner_update_swallow_revoke_failure :
    (resourcePostgreSQLDatabaseCreate ⟨"admin", "9.6.0", ⟨true, true⟩⟩
        ⟨"UTF8", "C", "C", "pg_default"⟩
        (fun s => if s = revokeStmt "app_role" "admin" then some "connection reset" else none)
        (fun _ => none)
        ⟨{ name := "app_db", owner := "app_role", template := "", encoding := "",
           lcCollate := "", lcCtype := "", tablespace := "", connLimit := -1,
           allowConns := true, isTemplate := false }, ""⟩).ret = none ∧
    (resourcePostgreSQLDatabaseCreate ⟨"admin", "9.6.0", ⟨true, true⟩⟩
        ⟨"UTF8", "C", "C", "pg_default"⟩
        (fun s => if s = revokeStmt "app_role" "admin" then some "connection reset" else none)
        (fun _ => none)
        ⟨{ name := "app_db", owner := "app_role", template := "", encoding := "",
           lcCollate := "", lcCtype := "", tablespace := "", connLimit := -1,
           allowConns := true, isTemplate := false }, ""⟩).revokeErr =
      some (.wrap (revokeCtx "admin" "app_role")
        (.wrap "Error revoking membership" (.store "connection reset"))) ∧
    (setDBOwner
        (fun s => if s = revokeStmt "app_role" "admin" then some "connection reset" else none)
        ⟨"admin", "9.6.0", ⟨true, true⟩⟩
        { name := "app_db", owner := "old_role", template := "", encoding := "",
          lcCollate := "", lcCtype := "", tablespace := "", connLimit := -1,
          allowConns := true, isTemplate := false }
        { name := "app_db", owner := "app_role", template := "", encoding := "",
          lcCollate := "", lcCtype := "", tablespace := "", connLimit := -1,
          allowConns := true, isTemplate := false }).2.1 = none ∧
    (setDBOwner
        (fun s => if s = revokeStmt "app_role" "admin" then some "connection reset" else none)
        ⟨"admin", "9.6.0", ⟨true, true⟩⟩
        { name := "app_db", owner := "old_role", template := "", encoding := "",
          lcCollate := "", lcCtype := "", tablespace := "", connLimit := -1,
          allowConns := true, isTemplate := false }
        { name := "app_db", owner := "app_role", template := "", encoding := "",
          lcCollate := "", lcCtype := "", tablespace := "", connLimit := -1,
          allowConns := true, isTemplate := false }).2.2 =
      some (.wrap (revokeCtx "admin" "app_role")
        (.wrap "Error revoking membership" (.store "connection reset"))) := by
  decide

/-- C2 counterexample: a Create whose desired state references both gated
attributes (allow-connections set to false, is-template set to true) against
a CapabilitySet lacking both features returns no error at all — the gated
clauses are silently omitted from the generated statement instead of the
claimed `UnsupportedFeature` error. -/
theorem create_without_capability_silently_omits_gated_attrs :
    (resourcePostgreSQLDatabaseCreate ⟨"admin", "8.0.0", ⟨false, false⟩⟩
        ⟨"UTF8", "C", "C", "pg_default"⟩ allOk (fun _ => none)
        ⟨{ name := "gated_db", owner := "", template := "", encoding := "", lcCollate := "",
           lcCtype := "", tablespace := "", connLimit := -1, allowConns := false,
           isTemplate := true }, ""⟩).ret = none ∧
    allowConnsClause ⟨false, false⟩
      { name := "gated_db", owner := "", template := "", encoding := "", lcCollate := "",
        lcCtype := "", tablespace := "", connLimit := -1, allowConns := false,
        isTemplate := true } = "" ∧
    isTemplateClause ⟨false, false⟩
      { name := "gated_db", owner := "", template := "", encoding := "", lcCollate := "",
        lcCtype := "", tablespace := "", connLimit := -1, allowConns := false,
        isTemplate := true } = "" := by
  decide

/-- C2 amended: on Update, changing allow-connections (resp. is-template)
while the corresponding capability is absent returns an `UnsupportedFeature`
error and executes no statement; on Create, a gated attribute whose
capability is absent contributes nothing to the generated statement and no
error is raised (a silent omission, not an error). -/
theorem gated_attribute_update_errors_create_omits :
    (∀ (failOf : Stmt → Option String) (c : Client) (old new : DBConfig) (id : String),
      c.caps.dbAllowConnections = false →
      old.allowConns ≠ new.allowConns →
      old.name = new.name → old.owner = new.owner → old.tablespace = new.tablespace →
      old.connLimit = new.connLimit →
      (resourcePostgreSQLDatabaseUpdate failOf c old new id).ret =
        some (.unsupportedFeature "ALLOW_CONNECTIONS" c.version) ∧
      (resourcePostgreSQLDatabaseUpdate failOf c old new id).stmts = []) ∧
    (∀ (failOf : Stmt → Option String) (c : Client) (old new : DBConfig) (id : String),
      c.caps.dbIsTemplate = false →
      old.isTemplate ≠ new.isTemplate →
      old.name = new.name → old.owner = new.owner → old.tablespace = new.tablespace →
      old.connLimit = new.connLimit → old.allowConns = new.allowConns →
      (resourcePostgreSQLDatabaseUpdate failOf c old new id).ret =
        some (.wrap "Error updating database IS_TEMPLATE"
          (.unsupportedFeature "IS_TEMPLATE" c.version)) ∧
      (resourcePostgreSQLDatabaseUpdate failOf c old new id).stmts = []) ∧
    (∀ (cfg : DBConfig) (caps : CapabilitySet),
      (caps.dbAllowConnections = false → allowConnsClause caps cfg = "") ∧
      (caps.dbIsTemplate = false → isTemplateClause caps cfg = "")) := by
  refine ⟨?_, ?_, ?_⟩
  · intro failOf c old new id hcap hch hn ho ht hl
    unfold resourcePostgreSQLDatabaseUpdate setDBName setDBOwner setDBTablespace
      setDBConnLimit setDBAllowConns
    simp [hn, ho, ht, hl, hch, hcap]
  · intro failOf c old new id hcap hch hn ho ht hl ha
    unfold resourcePostgreSQLDatabaseUpdate setDBName setDBOwner setDBTablespace
      setDBConnLimit setDBAllowConns setDBIsTemplate doSetDBIsTemplate
    simp [hn, ho, ht, hl, ha, hch, hcap]
  · intro cfg caps
    constructor
    · intro h
      simp [allowConnsClause, h]
    · intro h
      simp [isTemplateClause, h]

/-- Witness for the amended C2 at concrete inputs. -/
theorem gated_attribute_update_errors_create_omits_witness :
    (resourcePostgreSQLDatabaseUpdate allOk ⟨"admin", "8.0.0", ⟨false, false⟩⟩
        { name := "app_db", owner := "app_role", template := "", encoding := "",
          lcCollate := "", lcCtype := "", tablespace := "", connLimit := -1,
          allowConns := true, isTemplate := false }
        { name := "app_db", owner := "app_role", template := "", encoding := "",
          lcCollate := "", lcCtype := "", tablespace := "", connLimit := -1,
          allowConns := false, isTemplate := false } "app_db").ret =
      some (.unsupportedFeature "ALLOW_CONNECTIONS" "8.0.0") ∧
    (resourcePostgreSQLDatabaseUpdate allOk ⟨"admin", "8.0.0", ⟨false, false⟩⟩
        { name := "app_db", owner := "app_role", template := "", encoding := "",
          lcCollate := "", lcCtype := "", tablespace := "", connLimit := -1,
          allowConns := true, isTemplate := false }
        { name := "app_db", owner := "app_role", template := "", encoding := "",
          lcCollate := "", lcCtype := "", tablespace := "", connLimit := -1,
          allowConns := true, isTemplate := true } "app_db").ret =
      some (.wrap "Error updating database IS_TEMPLATE"
        (.unsupportedFeature "IS_TEMPLATE" "8.0.0")) ∧
    allowConnsClause ⟨false, false⟩
      { name := "app_db", owner := "app_role", template := "", encoding := "",
        lcCollate := "", lcCtype := "", tablespace := "", connLimit := -1,
        allowConns := false, isTemplate := false } = "" :=
  ⟨(gated_attribute_update_errors_create_omits.1 allOk ⟨"admin", "8.0.0", ⟨false, false⟩⟩
      { name := "app_db", owner := "app_role", template := "", encoding := "",
        lcCollate := "", lcCtype := "", tablespace := "", connLimit := -1,
        allowConns := true, isTemplate := false }
      { name := "app_db", owner := "app_role", template := "", encoding := "",
        lcCollate := "", lcCtype := "", tablespace := "", connLimit := -1,
        allowConns := false, isTemplate := false }
      "app_db" rfl (by decide) rfl rfl rfl rfl).1,
   (gated_attribute_update_errors_create_omits.2.1 allOk ⟨"admin", "8.0.0", ⟨false, false⟩⟩
      { name := "app_db", owner := "app_role", template := "", encoding := "",
        lcCollate := "", lcCtype := "", tablespace := "", connLimit := -1,
        allowConns := true, isTemplate := false }
      { name := "app_db", owner := "app_role", template := "", encoding := "",
        lcCollate := "", lcCtype := "", tablespace := "", connLimit := -1,
        allowConns := true, isTemplate := true }
      "app_db" rfl (by decide) rfl rfl rfl rfl rfl).1,
   (gated_attribute_update_errors_create_omits.2.2
      { name := "app_db", owner := "app_role", template := "", encoding := "",
        lcCollate := "", lcCtype := "", tablespace := "", connLimit := -1,
        allowConns := false, isTemplate := false } ⟨false, false⟩).1 rfl⟩

/-- C7 counterexample: a concrete Create executes exactly one statement whose
bound-parameter list is empty and whose text carries the connection limit
rendered as a decimal — on Create the limit is string-interpolated, not
passed as a bound parameter. -/
theorem create_interpolates_connection_limit :
    ((resourcePostgreSQLDatabaseCreate ⟨"admin", "9.6.0", ⟨true, true⟩⟩
        ⟨"UTF8", "C", "C", "pg_default"⟩ allOk (fun _ => none)
        ⟨{ name := "app_db", owner := "", template := "", encoding := "", lcCollate := "",
           lcCtype := "", tablespace := "", connLimit := 50, allowConns := true,
           isTemplate := false }, ""⟩).stmts.map
      (fun s => (s.params, strContains s.text " CONNECTION LIMIT 50"))) = [([], true)] := by
  decide

/-- C7 amended: on Update the connection limit always travels as the bound
parameter `$1` of the ALTER statement (never in the text); on Create the
limit is interpolated as a decimal into the CREATE DATABASE text, and the
whole CREATE statement is executed with an empty parameter list. -/
theorem connection_limit_parameterized_on_update_only :
    (∀ (failOf : Stmt → Option String) (old new : DBConfig),
      old.connLimit ≠ new.connLimit →
      (setDBConnLimit failOf old new).1 =
        [⟨"ALTER DATABASE " ++ quoteIdentifier new.name ++ " CONNECTION LIMIT = $1",
          [.int new.connLimit]⟩]) ∧
    (∀ (cfg : DBConfig) (caps : CapabilitySet) (u : String),
      ∃ pre, createDatabaseSQL cfg caps u =
        pre ++ (" CONNECTION LIMIT " ++ toString cfg.connLimit) ++ isTemplateClause caps cfg) ∧
    (∀ (c : Client) (defs : ServerDefaults) (cat : Catalog) (d : ResourceData),
      (resourcePostgreSQLDatabaseCreate c defs allOk cat d).stmts =
        (grantRoleMembership allOk d.cfg.owner c.username).1
          ++ [⟨createDatabaseSQL d.cfg c.caps c.username, []⟩]
          ++ (revokeRoleMembership allOk d.cfg.owner c.username).1) := by
  refine ⟨?_, ?_, ?_⟩
  · intro failOf old new h
    unfold setDBConnLimit
    rw [if_neg h]
    cases hf : failOf (connLimitStmt new.name new.connLimit) <;>
      simp only [connLimitStmt] at hf <;> simp [hf, connLimitStmt]
  · intro cfg caps u
    exact ⟨"CREATE DATABASE " ++ quoteIdentifier cfg.name ++ ownerClause cfg u
      ++ templateClause cfg ++ encodingClause cfg ++ collationClause cfg
      ++ ctypeClause cfg ++ tablespaceClause cfg ++ allowConnsClause caps cfg, rfl⟩
  · intro c defs cat d
    simp [resourcePostgreSQLDatabaseCreate, grantRoleMembership_allOk,
      revokeRoleMembership_allOk, allOk]

/-- Witness for the amended C7 at concrete inputs. -/
theorem connection_limit_parameterized_on_update_only_witness :
    (setDBConnLimit allOk
        { name := "app_db", owner := "app_role", template := "", encoding := "",
          lcCollate := "", lcCtype := "", tablespace := "", connLimit := -1,
          allowConns := true, isTemplate := false }
        { name := "app_db", owner := "app_role", template := "", encoding := "",
          lcCollate := "", lcCtype := "", tablespace := "", connLimit := 50,
          allowConns := true, isTemplate := false }).1 =
      [⟨"ALTER DATABASE " ++ quoteIdentifier "app_db" ++ " CONNECTION LIMIT = $1",
        [.int 50]⟩] ∧
    (∃ pre, createDatabaseSQL
        { name := "app_db", owner := "app_role", template := "", encoding := "",
          lcCollate := "", lcCtype := "", tablespace := "", connLimit := 50,
          allowConns := true, isTemplate := false } ⟨true, true⟩ "admin" =
      pre ++ (" CONNECTION LIMIT " ++ toString (50 : Int))
        ++ isTemplateClause ⟨true, true⟩
          { name := "app_db", owner := "app_role", template := "", encoding := "",
            lcCollate := "", lcCtype := "", tablespace := "", connLimit := 50,
            allowConns := true, isTemplate := false }) :=
  ⟨connection_limit_parameterized_on_update_only.1 allOk _ _ (by decide),
   connection_limit_parameterized_on_update_only.2.1 _ ⟨true, true⟩ "admin"⟩

/-- C6: Delete of an object whose is-template flag is currently true, with
the is-template capability present, always emits the clear-template statement
(`IS_TEMPLATE` with parameter `false`) as the very first statement, and any
drop statement can only appear strictly after it — for every store oracle and
every diff state of the is-template attribute. -/
theorem delete_clears_template_flag_before_drop (failOf : Stmt → Option String) (c : Client)
    (cfg : DBConfig) (hc : Bool) (id : String)
    (hcap : c.caps.dbIsTemplate = true) (htpl : cfg.isTemplate = true) :
    (resourcePostgreSQLDatabaseDelete failOf c cfg hc id).stmts.head? =
      some (isTemplateStmt cfg.name false) ∧
    ∀ j, (resourcePostgreSQLDatabaseDelete failOf c cfg hc id).stmts.get? j =
      some (dropStmt cfg.name) → 0 < j := by
  unfold resourcePostgreSQLDatabaseDelete setDBIsTemplate doSetDBIsTemplate
  rcases h1 : failOf (isTemplateStmt cfg.name false) with _ | e1 <;>
  cases hc <;>
  rcases h2 : failOf (isTemplateStmt cfg.name true) with _ | e2 <;>
  rcases h3 : failOf (dropStmt cfg.name) with _ | e3 <;>
    simp [hcap, htpl, h1, h2, h3] <;>
    (intro j hj; rcases j with _ | _ | _ | j <;> simp_all [isTemplateStmt, dropStmt])

/-- Witness for C6: on a concrete template database the delete trace is
`[clear-template, drop]`, with the drop found at index 1 (strictly after the
clear at index 0). -/
theorem delete_clears_template_flag_before_drop_witness :
    (resourcePostgreSQLDatabaseDelete allOk ⟨"admin", "9.6.0", ⟨true, true⟩⟩
        { name := "tmpl_db", owner := "app_role", template := "", encoding := "",
          lcCollate := "", lcCtype := "", tablespace := "", connLimit := -1,
          allowConns := true, isTemplate := true } false "tmpl_db").stmts.head? =
      some (isTemplateStmt "tmpl_db" false) ∧
    0 < 1 :=
  ⟨(delete_clears_template_flag_before_drop allOk ⟨"admin", "9.6.0", ⟨true, true⟩⟩
      { name := "tmpl_db", owner := "app_role", template := "", encoding := "",
        lcCollate := "", lcCtype := "", tablespace := "", connLimit := -1,
        allowConns := true, isTemplate := true } false "tmpl_db" rfl rfl).1,
   (delete_clears_template_flag_before_drop allOk ⟨"admin", "9.6.0", ⟨true, true⟩⟩
      { name := "tmpl_db", owner := "app_role", template := "", encoding := "",
        lcCollate := "", lcCtype := "", tablespace := "", connLimit := -1,
        allowConns := true, isTemplate := true } false "tmpl_db" rfl rfl).2 1 (by decide)⟩

/-- C5: in an Update where both the name and the owner change (under a store
that accepts the statements), the rename statement occurs strictly before the
ownership-change statement, and the ownership statement references the object
by its new name. -/
theorem update_rename_precedes_owner_change (c : Client) (old new : DBConfig) (id : String)
    (hn : old.name ≠ new.name) (hn2 : new.name ≠ "")
    (ho : old.owner ≠ new.owner) (ho2 : new.owner ≠ "") :
    ∃ i j, i < j ∧
      (resourcePostgreSQLDatabaseUpdate allOk c old new id).stmts.get? i =
        some (renameStmt old.name new.name) ∧
      (resourcePostgreSQLDatabaseUpdate allOk c old new id).stmts.get? j =
        some (alterOwnerStmt new.name new.owner) := by
  unfold resourcePostgreSQLDatabaseUpdate
  rw [setDBName_allOk_changed old new id hn hn2, setDBOwner_allOk_changed c old new ho ho2]
  dsimp only
  by_cases hu : new.owner = c.username
  · refine ⟨0, 1, by omega, ?_, ?_⟩ <;>
      (repeat' split) <;> simp_all
  · refine ⟨0, 2, by omega, ?_, ?_⟩ <;>
      (repeat' split) <;> simp_all

/-- Witness for C5 at a concrete input: renaming old_db to new_db while
changing the owner. -/
theorem update_rename_precedes_owner_change_witness :
    ∃ i j, i < j ∧
      (resourcePostgreSQLDatabaseUpdate allOk ⟨"admin", "9.6.0", ⟨true, true⟩⟩
          { name := "old_db", owner := "old_role", template := "", encoding := "",
            lcCollate := "", lcCtype := "", tablespace := "", connLimit := -1,
            allowConns := true, isTemplate := false }
          { name := "new_db", owner := "new_role", template := "", encoding := "",
            lcCollate := "", lcCtype := "", tablespace := "", connLimit := -1,
            allowConns := true, isTemplate := false } "old_db").stmts.get? i =
        some (renameStmt "old_db" "new_db") ∧
      (resourcePostgreSQLDatabaseUpdate allOk ⟨"admin", "9.6.0", ⟨true, true⟩⟩
          { name := "old_db", owner := "old_role", template := "", encoding := "",
            lcCollate := "", lcCtype := "", tablespace := "", connLimit := -1,
            allowConns := true, isTemplate := false }
          { name := "new_db", owner := "new_role", template := "", encoding := "",
            lcCollate := "", lcCtype := "", tablespace := "", connLimit := -1,
            allowConns := true, isTemplate := false } "old_db").stmts.get? j =
        some (alterOwnerStmt "new_db" "new_role") :=
  update_rename_precedes_owner_change ⟨"admin", "9.6.0", ⟨true, true⟩⟩
    { name := "old_db", owner := "old_role", template := "", encoding := "",
      lcCollate := "", lcCtype := "", tablespace := "", connLimit := -1,
      allowConns := true, isTemplate := false }
    { name := "new_db", owner := "new_role", template := "", encoding := "",
      lcCollate := "", lcCtype := "", tablespace := "", connLimit := -1,
      allowConns := true, isTemplate := false } "old_db"
    (by decide) (by decide) (by decide) (by decide)

/-- C3: for a desired state whose reconciler-managed attributes are all
explicitly set (no empty values and no DEFAULT sentinels, which leave the
value to the server), a successful Create followed by its immediate re-read
yields an observed state equal to the desired state on every
reconciler-managed attribute: name, owner, encoding, collation, ctype,
tablespace, connection limit, and the capability-gated flags (which keep
their configured values also when the capability is absent, since they are
then neither written nor read). -/
theorem create_then_read_roundtrip (c : Client) (defs : ServerDefaults) (cat : Catalog)
    (d : ResourceData)
    (hown : d.cfg.owner ≠ "")
    (henc : d.cfg.encoding ≠ "") (hencD : goToUpper d.cfg.encoding ≠ "DEFAULT")
    (hcol : d.cfg.lcCollate ≠ "") (hcolD : goToUpper d.cfg.lcCollate ≠ "DEFAULT")
    (hct : d.cfg.lcCtype ≠ "") (hctD : goToUpper d.cfg.lcCtype ≠ "DEFAULT")
    (htbs : d.cfg.tablespace ≠ "") (htbsD : goToUpper d.cfg.tablespace ≠ "DEFAULT") :
    (resourcePostgreSQLDatabaseCreate c defs allOk cat d).ret = none ∧
    (resourcePostgreSQLDatabaseCreate c defs allOk cat d).d.cfg.name = d.cfg.name ∧
    (resourcePostgreSQLDatabaseCreate c defs allOk cat d).d.cfg.owner = d.cfg.owner ∧
    (resourcePostgreSQLDatabaseCreate c defs allOk cat d).d.cfg.encoding = d.cfg.encoding ∧
    (resourcePostgreSQLDatabaseCreate c defs allOk cat d).d.cfg.lcCollate = d.cfg.lcCollate ∧
    (resourcePostgreSQLDatabaseCreate c defs allOk cat d).d.cfg.lcCtype = d.cfg.lcCtype ∧
    (resourcePostgreSQLDatabaseCreate c defs allOk cat d).d.cfg.tablespace = d.cfg.tablespace ∧
    (resourcePostgreSQLDatabaseCreate c defs allOk cat d).d.cfg.connLimit = d.cfg.connLimit ∧
    (resourcePostgreSQLDatabaseCreate c defs allOk cat d).d.cfg.allowConns = d.cfg.allowConns ∧
    (resourcePostgreSQLDatabaseCreate c defs allOk cat d).d.cfg.isTemplate = d.cfg.isTemplate := by
  unfold resourcePostgreSQLDatabaseCreate
  rw [grantRoleMembership_allOk]
  dsimp only
  unfold resourcePostgreSQLDatabaseReadImpl createdRow allOk
  simp [hown, henc, hencD, hcol, hcolD, hct, hctD, htbs, htbsD]
  by_cases hA : c.caps.dbAllowConnections <;> by_cases hT : c.caps.dbIsTemplate <;>
    simp [hA, hT]

/-- Witness for C3: a fully specified desired state round-trips through
Create and the immediate re-read. -/
theorem create_then_read_roundtrip_witness :
    (resourcePostgreSQLDatabaseCreate ⟨"admin", "9.6.0", ⟨true, true⟩⟩
        ⟨"UTF8", "C", "C", "pg_default"⟩ allOk (fun _ => none)
        ⟨{ name := "app_db", owner := "app_role", template := "template0",
           encoding := "UTF8", lcCollate := "C", lcCtype := "C", tablespace := "mytbs",
           connLimit := 25, allowConns := false, isTemplate := true }, ""⟩).ret = none ∧
    (resourcePostgreSQLDatabaseCreate ⟨"admin", "9.6.0", ⟨true, true⟩⟩
        ⟨"UTF8", "C", "C", "pg_default"⟩ allOk (fun _ => none)
        ⟨{ name := "app_db", owner := "app_role", template := "template0",
           encoding := "UTF8", lcCollate := "C", lcCtype := "C", tablespace := "mytbs",
           connLimit := 25, allowConns := false, isTemplate := true }, ""⟩).d.cfg.name
      = "app_db" ∧
    (resourcePostgreSQLDatabaseCreate ⟨"admin", "9.6.0", ⟨true, true⟩⟩
        ⟨"UTF8", "C", "C", "pg_default"⟩ allOk (fun _ => none)
        ⟨{ name := "app_db", owner := "app_role", template := "template0",
           encoding := "UTF8", lcCollate := "C", lcCtype := "C", tablespace := "mytbs",
           connLimit := 25, allowConns := false, isTemplate := true }, ""⟩).d.cfg.owner
      = "app_role" ∧
    (resourcePostgreSQLDatabaseCreate ⟨"admin", "9.6.0", ⟨true, true⟩⟩
        ⟨"UTF8", "C", "C", "pg_default"⟩ allOk (fun _ => none)
        ⟨{ name := "app_db", owner := "app_role", template := "template0",
           encoding := "UTF8", lcCollate := "C", lcCtype := "C", tablespace := "mytbs",
           connLimit := 25, allowConns := false, isTemplate := true }, ""⟩).d.cfg.encoding
      = "UTF8" ∧
    (resourcePostgreSQLDatabaseCreate ⟨"admin", "9.6.0", ⟨true, true⟩⟩
        ⟨"UTF8", "C", "C", "pg_default"⟩ allOk (fun _ => none)
        ⟨{ name := "app_db", owner := "app_role", template := "template0",
           encoding := "UTF8", lcCollate := "C", lcCtype := "C", tablespace := "mytbs",
           connLimit := 25, allowConns := false, isTemplate := true }, ""⟩).d.cfg.connLimit
      = 25 ∧
    (resourcePostgreSQLDatabaseCreate ⟨"admin", "9.6.0", ⟨true, true⟩⟩
        ⟨"UTF8", "C", "C", "pg_default"⟩ allOk (fun _ => none)
        ⟨{ name := "app_db", owner := "app_role", template := "template0",
           encoding := "UTF8", lcCollate := "C", lcCtype := "C", tablespace := "mytbs",
           connLimit := 25, allowConns := false, isTemplate := true }, ""⟩).d.cfg.allowConns
      = false ∧
    (resourcePostgreSQLDatabaseCreate ⟨"admin", "9.6.0", ⟨true, true⟩⟩
        ⟨"UTF8", "C", "C", "pg_default"⟩ allOk (fun _ => none)
        ⟨{ name := "app_db", owner := "app_role", template := "template0",
           encoding := "UTF8", lcCollate := "C", lcCtype := "C", tablespace := "mytbs",
           connLimit := 25, allowConns := false, isTemplate := true }, ""⟩).d.cfg.isTemplate
      = true := by
  have h := create_then_read_roundtrip ⟨"admin", "9.6.0", ⟨true, true⟩⟩
    ⟨"UTF8", "C", "C", "pg_default"⟩ (fun _ => none)
    ⟨{ name := "app_db", owner := "app_role", template := "template0",
       encoding := "UTF8", lcCollate := "C", lcCtype := "C", tablespace := "mytbs",
       connLimit := 25, allowConns := false, isTemplate := true }, ""⟩
    (by decide) (by decide) (by decide) (by decide) (by decide) (by decide) (by decide)
    (by decide) (by decide)
  exact ⟨h.1, h.2.1, h.2.2.1, h.2.2.2.1, h.2.2.2.2.2.2.2.1, h.2.2.2.2.2.2.2.2.1,
    h.2.2.2.2.2.2.2.2.2⟩

end PGProvider
